import Mathlib

/-!
Shallow embedding of the ModeratorBot core (config/settings.py,
src/database.py, src/rate_limiter.py, src/moderation.py) and proofs of the
spec claims about it.

Conventions of the embedding:
* Python ints are Lean `Int`; sqlite row ids are `Nat`.
* Timestamps (both `time.time()` floats and `datetime.utcnow()` values) are
  modelled as `Int` seconds on one clock; sqlite compares the stored
  ISO-format strings, which is order-isomorphic to comparing the instants,
  so the embedding compares the `Int` instants directly.
* `dict` state is an association list whose key set models the dict key set
  (`defaultdict` reads create the key, as in the source).
* Fallible operations (sqlite raising IntegrityError, Python raising
  ValueError / IndexError) return `Except String` / `Option`.
* External collaborators (environment variables, the Telegram actuator) are
  explicit parameters.
-/

/-- Python `str.split(",")` on the character list: splits at every comma and
keeps empty fields, so the result is always non-empty. -/
def py_split_comma : List Char → List String
  | [] => [""]
  | c :: rest =>
    if c = ',' then "" :: py_split_comma rest
    else
      match py_split_comma rest with
      | [] => [String.mk [c]]
      | s :: ss => String.mk (c :: s.data) :: ss

/-- Python `s.split(",")`. -/
def pySplit (s : String) : List String := py_split_comma s.data

/-- An ASCII whitespace character (the ones `str.strip()` removes that this
program can meet). -/
def is_py_space (c : Char) : Bool :=
  c = ' ' ∨ c = '\t' ∨ c = '\n' ∨ c = '\r'

/-- Python `s.strip()`. -/
def py_strip (s : String) : String :=
  String.mk (((s.data.dropWhile is_py_space).reverse.dropWhile is_py_space).reverse)

/-- Decimal value of one digit character. -/
def digit_val (c : Char) : Option Nat :=
  if c = '0' then some 0 else if c = '1' then some 1
  else if c = '2' then some 2 else if c = '3' then some 3
  else if c = '4' then some 4 else if c = '5' then some 5
  else if c = '6' then some 6 else if c = '7' then some 7
  else if c = '8' then some 8 else if c = '9' then some 9
  else none

/-- Accumulate a decimal literal left to right. -/
def parse_decimal : Nat → List Char → Option Nat
  | acc, [] => some acc
  | acc, c :: cs =>
    match digit_val c with
    | some d => parse_decimal (acc * 10 + d) cs
    | none => none

/-- Python `int(s)` on the strings this program feeds it (optionally signed
decimal literals, surrounding whitespace stripped): `none` models a raised
`ValueError`. -/
def pyInt (s : String) : Option Int :=
  match (py_strip s).data with
  | [] => none
  | '-' :: cs =>
    match cs with
    | [] => none
    | _ => (parse_decimal 0 cs).map (fun n => -(n : Int))
  | '+' :: cs =>
    match cs with
    | [] => none
    | _ => (parse_decimal 0 cs).map (fun n => (n : Int))
  | cs => (parse_decimal 0 cs).map (fun n => (n : Int))

/-- Python `str.lower()` on ASCII text. -/
def py_lower_char (c : Char) : Char :=
  if 'A' ≤ c ∧ c ≤ 'Z' then Char.ofNat (c.toNat + 32) else c

/-- Python `s.lower()`. -/
def py_lower (s : String) : String := String.mk (s.data.map py_lower_char)

/-- Python list indexing `l[i]` with negative-index-from-the-end semantics;
`none` models a raised `IndexError`. -/
def pyIndex (l : List Int) (i : Int) : Option Int :=
  if 0 ≤ i then
    if i < (l.length : Int) then l.get? i.toNat else none
  else
    if 0 ≤ (l.length : Int) + i then l.get? ((l.length : Int) + i).toNat else none

/-- config/settings.py `Config`: the attributes `__init__` assigns. -/
structure Config where
  bot_token : String
  admin_ids : List Int
  antiflood_max_messages : Int
  antiflood_window_seconds : Int
  warns_to_punish : Int
  auto_mute_hours : Int
  escalation_durations : List Int
  whitelisted_users : List Int
  rules : String
  allowed_domains : List String
  banned_words : List String
  captcha_timeout_seconds : Int
  db_path : String
  notify_admins : Bool
  notification_chat : Option Int
  deriving Repr, DecidableEq

/-- Python list comprehension `[int(x.strip()) for x in s.split(",") if x.strip()]` (admin/whitelist
parsing: empty fields dropped, any bad field raises). -/
def parse_id_list (s : String) : Option (List Int) :=
  ((pySplit s).filter (fun x => py_strip x ≠ "")).mapM pyInt

/-- Python list comprehension `[int(x.strip()) for x in escalation_str.split(",")]` (no field filter). -/
def parse_duration_list (s : String) : Option (List Int) :=
  (pySplit s).mapM pyInt

/-- config/settings.py `Config.__init__`, as a function of the process
environment (`env name = some v` models `os.getenv(name) = v`).
`Except.error` models a raised exception: construction fails. -/
def Config.init (env : String → Option String) : Except String Config := do
  let bot_token := (env "BOT_TOKEN").getD ""
  if bot_token = "" ∧ (env "PYTEST_CURRENT_TEST").getD "" = "" then
    throw "BOT_TOKEN is required"
  let admin_ids_str := (env "ADMIN_IDS").getD ""
  let admin_ids ←
    if admin_ids_str ≠ "" then
      match parse_id_list admin_ids_str with
      | some l => pure l
      | none => throw "ADMIN_IDS must be comma-separated integers"
    else pure []
  let antiflood_max_messages ←
    match pyInt ((env "ANTIFLOOD_MAX_MESSAGES").getD "5") with
    | some n => pure n
    | none => throw "invalid literal for int"
  let antiflood_window_seconds ←
    match pyInt ((env "ANTIFLOOD_WINDOW_SECONDS").getD "10") with
    | some n => pure n
    | none => throw "invalid literal for int"
  let warns_to_punish ←
    match pyInt ((env "WARNS_TO_PUNISH").getD "3") with
    | some n => pure n
    | none => throw "invalid literal for int"
  let auto_mute_hours ←
    match pyInt ((env "AUTO_MUTE_HOURS").getD "24") with
    | some n => pure n
    | none => throw "invalid literal for int"
  let escalation_str := (env "ESCALATION_DURATIONS").getD "60,360,1440,10080"
  let escalation_durations :=
    match parse_duration_list escalation_str with
    | some l => l
    | none => [60, 360, 1440, 10080]
  let whitelist_str := (env "WHITELISTED_USERS").getD ""
  let whitelisted_users ←
    if whitelist_str ≠ "" then
      match parse_id_list whitelist_str with
      | some l => pure l
      | none => throw "WHITELISTED_USERS must be comma-separated integers"
    else pure []
  let rules := (env "RULES").getD "Please follow the community rules."
  let domains_str := (env "ALLOWED_DOMAINS").getD ""
  let allowed_domains :=
    if domains_str ≠ "" then
      ((pySplit domains_str).filter (fun x => py_strip x ≠ "")).map py_strip
    else []
  let words_str := (env "BANNED_WORDS").getD ""
  let banned_words :=
    if words_str ≠ "" then
      ((pySplit words_str).filter (fun x => py_strip x ≠ "")).map (fun x => py_lower (py_strip x))
    else []
  let captcha_timeout_seconds ←
    match pyInt ((env "CAPTCHA_TIMEOUT_SECONDS").getD "120") with
    | some n => pure n
    | none => throw "invalid literal for int"
  let db_path := (env "DB_PATH").getD "./data/modbot.db"
  let notify_admins := py_lower ((env "NOTIFY_ADMINS").getD "true") = "true"
  let notification_chat :=
    if (env "NOTIFICATION_CHAT").getD "" ≠ "" then
      pyInt ((env "NOTIFICATION_CHAT").getD "")
    else none
  pure {
    bot_token, admin_ids, antiflood_max_messages, antiflood_window_seconds,
    warns_to_punish, auto_mute_hours, escalation_durations, whitelisted_users,
    rules, allowed_domains, banned_words, captcha_timeout_seconds, db_path,
    notify_admins, notification_chat }

/-- config/settings.py `Config.is_admin`. -/
def Config.is_admin (cfg : Config) (user_id : Int) : Bool :=
  cfg.admin_ids.contains user_id

/-- config/settings.py `Config.is_whitelisted`. -/
def Config.is_whitelisted (cfg : Config) (user_id : Int) : Bool :=
  cfg.whitelisted_users.contains user_id

/-- config/settings.py `Config.is_exempt_from_rate_limit`. -/
def Config.is_exempt_from_rate_limit (cfg : Config) (user_id : Int) : Bool :=
  cfg.is_admin user_id || cfg.is_whitelisted user_id

/-- config/settings.py `Config.get_mute_duration`, as a function of the
configured ladder; `none` models a raised `IndexError`. -/
def Config.get_mute_duration (escalation_durations : List Int)
    (violation_count : Int) : Option Int :=
  if violation_count ≤ 0 then
    some (match escalation_durations with | [] => 60 | d :: _ => d)
  else
    pyIndex escalation_durations
      (min (violation_count - 1) ((escalation_durations.length : Int) - 1))

/-- src/database.py violation_type column values used by the program. -/
inductive VType where
  | rate_limit
  | manual
  deriving Repr, DecidableEq

/-- src/database.py `UserViolation` (row fields; the id lives in the table). -/
structure UserViolation where
  user_id : Int
  chat_id : Int
  violation_type : VType
  timestamp : Int
  mute_duration_minutes : Int
  is_active : Bool
  deriving Repr, DecidableEq

/-- src/database.py `UserStats`. -/
structure UserStats where
  user_id : Int
  chat_id : Int
  total_violations : Nat
  last_violation : Option Int
  is_currently_muted : Bool
  deriving Repr, DecidableEq

/-- src/database.py `Database`: the user_violations table created by the
schema (rows paired with their AUTOINCREMENT id, plus the next id). -/
structure Database where
  rows : List (Nat × UserViolation)
  next_id : Nat
  deriving Repr, DecidableEq

/-- A fresh, empty user_violations table. -/
def Database.empty : Database := ⟨[], 1⟩

/-- Does a row collide with `v` on the schema constraint
`UNIQUE(user_id, chat_id, timestamp)`? -/
def violates_unique (v : UserViolation) (p : Nat × UserViolation) : Bool :=
  p.2.user_id = v.user_id ∧ p.2.chat_id = v.chat_id ∧ p.2.timestamp = v.timestamp

/-- src/database.py `Database.add_violation`: INSERT honouring the schema
constraint `UNIQUE(user_id, chat_id, timestamp)`; on success returns
`cursor.lastrowid` and the grown table, `Except.error` models the raised
IntegrityError. -/
def Database.add_violation (db : Database) (v : UserViolation) :
    Except String (Nat × Database) :=
  if db.rows.any (violates_unique v) then
    .error "UNIQUE constraint failed: user_violations.user_id, user_violations.chat_id, user_violations.timestamp"
  else
    .ok (db.next_id, ⟨db.rows ++ [(db.next_id, v)], db.next_id + 1⟩)

/-- src/database.py `Database.get_user_violation_count`: SELECT COUNT(*)
WHERE user_id = ? AND chat_id = ? AND timestamp > now - days_back days.
Note: no violation_type condition. -/
def Database.get_user_violation_count (db : Database) (user_id chat_id : Int)
    (now : Int) (days_back : Int := 30) : Nat :=
  (db.rows.filter (fun p =>
    p.2.user_id = user_id ∧ p.2.chat_id = chat_id ∧
      p.2.timestamp > now - days_back * 86400)).length

/-- src/database.py `Database.get_user_stats`. -/
def Database.get_user_stats (db : Database) (user_id chat_id : Int)
    (now : Int) : UserStats :=
  let mine := db.rows.filter (fun p => p.2.user_id = user_id ∧ p.2.chat_id = chat_id)
  let recent_cutoff := now - 24 * 3600
  { user_id, chat_id
    total_violations := mine.length
    last_violation := (mine.map (fun p => p.2.timestamp)).max?
    is_currently_muted :=
      (db.rows.filter (fun p =>
        p.2.user_id = user_id ∧ p.2.chat_id = chat_id ∧
          p.2.timestamp > recent_cutoff ∧ p.2.is_active = true)).length > 0 }

/-- src/rate_limiter.py `RateLimiter`: `_message_history`, a
`defaultdict(list)` keyed by `(chat_id, user_id)`, modelled as an
association list (key presence matters for `get_stats`). -/
structure RateLimiter where
  message_history : List ((Int × Int) × List Int)
  deriving Repr, DecidableEq

/-- Constructor `RateLimiter()`: empty history. -/
def RateLimiter.empty : RateLimiter := ⟨[]⟩

/-- Reading `self._message_history[key]` on the defaultdict: the stored
list, or `[]` when the key is absent. -/
def RateLimiter.read (rl : RateLimiter) (key : Int × Int) : List Int :=
  match rl.message_history.lookup key with
  | some l => l
  | none => []

/-- Assignment `self._message_history[key] = v`: updates in place, or (as the
defaultdict read inside the statement does) creates the key. -/
def RateLimiter.store (rl : RateLimiter) (key : Int × Int) (v : List Int) :
    RateLimiter :=
  if rl.message_history.lookup key = none then
    ⟨rl.message_history ++ [(key, v)]⟩
  else
    ⟨rl.message_history.map (fun p => if p.1 = key then (key, v) else p)⟩

/-- Deletion `del self._message_history[key]`. -/
def RateLimiter.erase (rl : RateLimiter) (key : Int × Int) : RateLimiter :=
  ⟨rl.message_history.filter (fun p => p.1 ≠ key)⟩

/-- src/rate_limiter.py `RateLimiter.check_rate_limit` (with `current_time`,
read from `time.time()` in the source, as an explicit parameter): returns
the exceeded flag and the post-call state. -/
def RateLimiter.check_rate_limit (cfg : Config) (rl : RateLimiter)
    (current_time : Int) (user_id chat_id : Int) : Bool × RateLimiter :=
  if cfg.is_exempt_from_rate_limit user_id then
    (false, rl)
  else
    let key := (chat_id, user_id)
    let cutoff_time := current_time - cfg.antiflood_window_seconds
    let kept := (rl.read key).filter (fun timestamp => timestamp > cutoff_time)
    let hist := kept ++ [current_time]
    ((hist.length : Int) > cfg.antiflood_max_messages, rl.store key hist)

/-- src/rate_limiter.py `RateLimiter.add_message`: delegates to
`check_rate_limit`. -/
def RateLimiter.add_message (cfg : Config) (rl : RateLimiter)
    (current_time : Int) (user_id chat_id : Int) : Bool × RateLimiter :=
  RateLimiter.check_rate_limit cfg rl current_time user_id chat_id

/-- src/rate_limiter.py `RateLimiter.get_message_count`: prunes (and, key
absent, creates the defaultdict entry) without appending; returns the
in-window count and the post-call state. -/
def RateLimiter.get_message_count (cfg : Config) (rl : RateLimiter)
    (current_time : Int) (user_id chat_id : Int) : Nat × RateLimiter :=
  let key := (chat_id, user_id)
  let cutoff_time := current_time - cfg.antiflood_window_seconds
  let kept := (rl.read key).filter (fun timestamp => timestamp > cutoff_time)
  (kept.length, rl.store key kept)

/-- One call of the sliding-window core of `check_rate_limit` on a single
history: prune strictly-older-than-cutoff timestamps, append the call
instant, compare against the threshold. -/
def window_step (window max_messages : Int) (hist : List Int) (t : Int) :
    Bool × List Int :=
  let kept := hist.filter (fun timestamp => timestamp > t - window)
  let hist1 := kept ++ [t]
  (((hist1.length : Int) > max_messages : Bool), hist1)

/-- Iterate `window_step` over the call instants, collecting the flags. -/
def window_calls (window max_messages : Int) :
    List Int → List Int → List Bool × List Int
  | hist, [] => ([], hist)
  | hist, t :: ts =>
    let s := window_step window max_messages hist t
    let r := window_calls window max_messages s.2 ts
    (s.1 :: r.1, r.2)

/-- src/rate_limiter.py `RateLimiter.reset_user_history`. -/
def RateLimiter.reset_user_history (rl : RateLimiter)
    (user_id chat_id : Int) : RateLimiter :=
  rl.erase (chat_id, user_id)

/-- src/rate_limiter.py `RateLimiter.get_stats`:
(tracked_users, total_messages_in_window). -/
def RateLimiter.get_stats (rl : RateLimiter) : Nat × Nat :=
  (rl.message_history.length,
   (rl.message_history.map (fun p => p.2.length)).sum)

/-- Driver iterating `check_rate_limit` for one actor over a list of call
instants, collecting the returned flags (the per-actor call sequences of
spec section 8). -/
def RateLimiter.run_calls (cfg : Config) (user_id chat_id : Int) :
    RateLimiter → List Int → List Bool × RateLimiter
  | rl, [] => ([], rl)
  | rl, t :: ts =>
    let s := RateLimiter.check_rate_limit cfg rl t user_id chat_id
    let r := RateLimiter.run_calls cfg user_id chat_id s.2 ts
    (s.1 :: r.1, r.2)

/-- src/moderation.py `_apply_mute` outcome, as the external actuator
reports it: the success dict carries the username, the failure dict the
underlying Telegram error string. -/
inductive MuteResult where
  | success (username : String)
  | failure (error : String)
  deriving Repr, DecidableEq

/-- The action dict `handle_message` returns on a completed mute. -/
structure MuteAction where
  action : String
  user_id : Int
  chat_id : Int
  violation_id : Nat
  violation_count : Nat
  mute_duration_minutes : Int
  username : String
  reason : String
  deriving Repr, DecidableEq

/-- Everything observable of one `handle_message` run: the returned value
(`none` models Python `None`), whether `_notify_admins_of_mute` was
invoked, and the post-call rate limiter and database states. -/
structure HandleResult where
  returned : Option MuteAction
  notified : Bool
  rl : RateLimiter
  db : Database
  deriving Repr, DecidableEq

/-- src/moderation.py `ModerationManager.handle_message` (with the clock
and the actuator outcome as explicit parameters; `Except.error` models an
uncaught exception escaping the call). -/
def ModerationManager.handle_message (cfg : Config) (rl : RateLimiter)
    (db : Database) (now : Int) (user_id chat_id : Int)
    (mute_result : MuteResult) : Except String HandleResult :=
  let checked := RateLimiter.add_message cfg rl now user_id chat_id
  let rate_limit_exceeded := checked.1
  let rl1 := checked.2
  if rate_limit_exceeded then
    let violation_count := db.get_user_violation_count user_id chat_id now
    match Config.get_mute_duration cfg.escalation_durations
        ((violation_count : Int) + 1) with
    | none => .error "IndexError: list index out of range"
    | some mute_duration_minutes =>
      let violation : UserViolation :=
        { user_id, chat_id, violation_type := .rate_limit, timestamp := now,
          mute_duration_minutes, is_active := true }
      match db.add_violation violation with
      | .error e => .error e
      | .ok (violation_id, db1) =>
        match mute_result with
        | .success username =>
          let rl2 := rl1.reset_user_history user_id chat_id
          .ok { returned := some
                  { action := "mute", user_id, chat_id, violation_id,
                    violation_count := violation_count + 1,
                    mute_duration_minutes, username,
                    reason := "Rate limit exceeded" },
                notified := true, rl := rl2, db := db1 }
        | .failure _ =>
          .ok { returned := none, notified := false, rl := rl1, db := db1 }
  else
    .ok { returned := none, notified := false, rl := rl1, db := db }

/-- The dict `manual_mute` returns. -/
inductive ManualMuteResult where
  | applied (violation_id : Nat) (username : String)
  | failed (error : String)
  deriving Repr, DecidableEq

/-- src/moderation.py `ModerationManager.manual_mute`: writes a
violation_type = manual record through the database, then actuates. -/
def ModerationManager.manual_mute (db : Database) (now : Int)
    (user_id chat_id : Int) (duration_minutes : Int)
    (mute_result : MuteResult) : Except String (ManualMuteResult × Database) :=
  let violation : UserViolation :=
    { user_id, chat_id, violation_type := .manual, timestamp := now,
      mute_duration_minutes := duration_minutes, is_active := true }
  match db.add_violation violation with
  | .error e => .error e
  | .ok (violation_id, db1) =>
    match mute_result with
    | .success username => .ok (.applied violation_id username, db1)
    | .failure e => .ok (.failed e, db1)

/-- The dict `get_user_status` returns. -/
structure UserStatus where
  user_id : Int
  chat_id : Int
  total_violations : Nat
  last_violation : Option Int
  is_currently_muted : Bool
  current_message_count : Nat
  is_exempt : Bool
  is_admin : Bool
  is_whitelisted : Bool
  deriving Repr, DecidableEq

/-- src/moderation.py `ModerationManager.get_user_status`: composes
`Database.get_user_stats` (a read) with `RateLimiter.get_message_count`
(which returns a post-call limiter state); the database is only read. -/
def ModerationManager.get_user_status (cfg : Config) (rl : RateLimiter)
    (db : Database) (now : Int) (user_id chat_id : Int) :
    UserStatus × RateLimiter :=
  let stats := db.get_user_stats user_id chat_id now
  let counted := RateLimiter.get_message_count cfg rl now user_id chat_id
  let message_count := counted.1
  let rl1 := counted.2
  ({ user_id, chat_id
     total_violations := stats.total_violations
     last_violation := stats.last_violation
     is_currently_muted := stats.is_currently_muted
     current_message_count := message_count
     is_exempt := cfg.is_exempt_from_rate_limit user_id
     is_admin := cfg.is_admin user_id
     is_whitelisted := cfg.is_whitelisted user_id }, rl1)

/-! ## Escalation policy (claims C5, C6, C7) -/

/-- On a non-empty ladder, `get_mute_duration` is a total lookup at the
clamped index `min (n-1) (length-1)` (with `n ≤ 0` landing on index 0). -/
lemma get_mute_duration_eq_getElem? (l : List Int) (hl : l ≠ []) (n : Int) :
    Config.get_mute_duration l n = l[min (n - 1).toNat (l.length - 1)]? := by
  obtain ⟨d, t, rfl⟩ := List.exists_cons_of_ne_nil hl
  unfold Config.get_mute_duration pyIndex
  by_cases hn : n ≤ 0
  · rw [if_pos hn]
    have h1 : min (n - 1).toNat ((d :: t).length - 1) = 0 := by omega
    rw [h1]
    simp
  · rw [if_neg hn]
    have hlen : (1 : Int) ≤ ((d :: t).length : Int) := by
      have h : (d :: t).length = t.length + 1 := rfl
      omega
    have h0 : 0 ≤ min (n - 1) (((d :: t).length : Int) - 1) := by omega
    rw [if_pos h0]
    have hlt : min (n - 1) (((d :: t).length : Int) - 1) < ((d :: t).length : Int) := by
      omega
    rw [if_pos hlt]
    rw [List.get?_eq_getElem?]
    congr 1
    omega

/-- C5: for every non-empty configured escalation ladder, `get_mute_duration`
returns the first rung for every ordinal ≤ 0, the ordinal-th rung for
ordinals between 1 and the ladder length, and the last rung for every
ordinal beyond the ladder length. -/
theorem mute_duration_clamps_to_ladder (l : List Int) (hl : l ≠ []) :
    (∀ o : Int, o ≤ 0 → Config.get_mute_duration l o = l.head?) ∧
    (∀ o : Int, 1 ≤ o → o ≤ (l.length : Int) →
      Config.get_mute_duration l o = l[(o - 1).toNat]?) ∧
    (∀ o : Int, (l.length : Int) < o →
      Config.get_mute_duration l o = some (l.getLast hl)) := by
  have hpos := List.length_pos.mpr hl
  refine ⟨fun o ho => ?_, fun o ho1 ho2 => ?_, fun o ho => ?_⟩
  · rw [get_mute_duration_eq_getElem? l hl o]
    have h1 : min (o - 1).toNat (l.length - 1) = 0 := by omega
    rw [h1, List.head?_eq_getElem?]
  · rw [get_mute_duration_eq_getElem? l hl o]
    congr 1
    omega
  · rw [get_mute_duration_eq_getElem? l hl o]
    have h1 : min (o - 1).toNat (l.length - 1) = l.length - 1 := by omega
    rw [h1, List.getLast_eq_getElem l hl, List.getElem?_eq_getElem]

/-- Witness for C5 at the spec ladder [60, 360, 1440, 10080]: ordinals
1..5 map to 60, 360, 1440, 10080, 10080, and ordinal 0 to the first rung. -/
theorem mute_duration_clamps_to_ladder_witness :
    Config.get_mute_duration [60, 360, 1440, 10080] 2 = [60, 360, 1440, 10080][(2 - 1 : Int).toNat]? ∧
    Config.get_mute_duration [60, 360, 1440, 10080] 5 =
      some ([60, 360, 1440, 10080].getLast (by decide)) ∧
    Config.get_mute_duration [60, 360, 1440, 10080] 0 = [60, 360, 1440, 10080].head? :=
  ⟨(mute_duration_clamps_to_ladder [60, 360, 1440, 10080] (by decide)).2.1 2
      (by decide) (by decide),
   (mute_duration_clamps_to_ladder [60, 360, 1440, 10080] (by decide)).2.2 5 (by decide),
   (mute_duration_clamps_to_ladder [60, 360, 1440, 10080] (by decide)).1 0 (by decide)⟩

/-- C6: on an empty ladder the code returns the built-in fallback 60 only
for non-positive ordinals; for ordinal 1 (and every positive ordinal) the
clamped index is -1 and the lookup on the empty list raises IndexError
(modelled `none`) instead of returning the fallback. -/
theorem empty_ladder_positive_ordinal_raises :
    Config.get_mute_duration [] 1 = none ∧
    Config.get_mute_duration [] 0 = some 60 ∧
    Config.get_mute_duration [] (-3) = some 60 := by
  refine ⟨?_, rfl, rfl⟩
  rfl

/-- C7: on a non-empty ladder sorted non-decreasingly, the mute duration is
monotone in the violation ordinal. -/
theorem mute_duration_monotone (l : List Int) (hl : l ≠ [])
    (hs : l.Sorted (· ≤ ·)) (n : Int) :
    ∃ a b, Config.get_mute_duration l n = some a ∧
      Config.get_mute_duration l (n + 1) = some b ∧ a ≤ b := by
  have hpos := List.length_pos.mpr hl
  have hi : min (n - 1).toNat (l.length - 1) < l.length := by omega
  have hj : min (n + 1 - 1).toNat (l.length - 1) < l.length := by omega
  refine ⟨l[min (n - 1).toNat (l.length - 1)], l[min (n + 1 - 1).toNat (l.length - 1)],
    ?_, ?_, ?_⟩
  · rw [get_mute_duration_eq_getElem? l hl n, List.getElem?_eq_getElem hi]
  · rw [get_mute_duration_eq_getElem? l hl (n + 1), List.getElem?_eq_getElem hj]
  · have hij : min (n - 1).toNat (l.length - 1) ≤ min (n + 1 - 1).toNat (l.length - 1) := by
      omega
    exact hs.rel_get_of_le (a := ⟨_, hi⟩) (b := ⟨_, hj⟩) hij

/-- Witness for C7 at the spec ladder and ordinal 3. -/
theorem mute_duration_monotone_witness :
    ∃ a b, Config.get_mute_duration [60, 360, 1440, 10080] 3 = some a ∧
      Config.get_mute_duration [60, 360, 1440, 10080] (3 + 1) = some b ∧ a ≤ b :=
  mute_duration_monotone [60, 360, 1440, 10080] (by decide) (by decide) 3

/-! ## Configuration construction (claim C9) -/

/-- An environment with a bot token, a negative rate-limit window, a zero
message threshold, and an empty ESCALATION_DURATIONS value. -/
def env_no_validation : String → Option String := fun name =>
  if name = "BOT_TOKEN" then some "token"
  else if name = "ANTIFLOOD_WINDOW_SECONDS" then some "-5"
  else if name = "ANTIFLOOD_MAX_MESSAGES" then some "0"
  else if name = "ESCALATION_DURATIONS" then some ""
  else none

/-- C9 counterexample: constructing the configuration with window_seconds -5
and max_messages 0 (and an empty escalation string) is not rejected: it
succeeds and yields a configuration carrying those non-positive values. -/
theorem config_init_accepts_nonpositive :
    (Config.init env_no_validation).isOk = true ∧
    (Config.init env_no_validation).toOption.map
      (fun c => (c.antiflood_window_seconds, c.antiflood_max_messages)) =
      some (-5, 0) := by
  exact ⟨by decide, by decide⟩

/-- C9 amended: `Config.__init__` does not validate the ladder, window or
threshold: non-positive window and threshold values produce a usable
configuration object carrying them, and a malformed (here empty)
ESCALATION_DURATIONS value silently falls back to the default ladder
instead of failing, so construction never yields an empty ladder from the
environment. -/
theorem config_init_no_validation :
    (Config.init env_no_validation).toOption.map
      (fun c => (c.antiflood_window_seconds, c.antiflood_max_messages,
                 c.escalation_durations)) =
      some (-5, 0, [60, 360, 1440, 10080]) := by
  decide

/-! ## Exempt actors (claim C10) -/

/-- C10: for an exempt actor every `check_rate_limit` call returns false and
leaves the limiter state — in particular the (absent/empty) entry of the actor —
completely unchanged, whatever the call instants. -/
theorem exempt_calls_false_and_state_unchanged (cfg : Config)
    (user_id chat_id : Int)
    (hex : cfg.is_exempt_from_rate_limit user_id = true)
    (rl : RateLimiter) (ts : List Int) :
    RateLimiter.run_calls cfg user_id chat_id rl ts =
      (List.replicate ts.length false, rl) := by
  induction ts generalizing rl with
  | nil => rfl
  | cons t ts ih =>
    simp [RateLimiter.run_calls, RateLimiter.check_rate_limit, hex, ih,
      List.replicate_succ]

/-- A concrete configuration matching the defaults (window 10 s, threshold
5, default ladder) with admin id 42. -/
def test_config : Config :=
  { bot_token := "token", admin_ids := [42], antiflood_max_messages := 5,
    antiflood_window_seconds := 10, warns_to_punish := 3,
    auto_mute_hours := 24, escalation_durations := [60, 360, 1440, 10080],
    whitelisted_users := [], rules := "", allowed_domains := [],
    banned_words := [], captcha_timeout_seconds := 120, db_path := "",
    notify_admins := true, notification_chat := none }

/-- Witness for C10: the admin actor (42, 9), 20 calls in zero elapsed
time, all false, state still empty. -/
theorem exempt_calls_false_and_state_unchanged_witness :
    RateLimiter.run_calls test_config 42 9 RateLimiter.empty
      [0, 0, 0, 0, 0, 0, 0, 0, 0, 0, 0, 0, 0, 0, 0, 0, 0, 0, 0, 0] =
      (List.replicate 20 false, RateLimiter.empty) :=
  exempt_calls_false_and_state_unchanged test_config 42 9 (by decide)
    RateLimiter.empty [0, 0, 0, 0, 0, 0, 0, 0, 0, 0, 0, 0, 0, 0, 0, 0, 0, 0, 0, 0]

/-! ## Ledger append (claim C3) -/

/-- A well-formed violation record used to probe the UNIQUE constraint. -/
def dup_violation : UserViolation :=
  { user_id := 7, chat_id := 9, violation_type := .rate_limit,
    timestamp := 1000, mute_duration_minutes := 60, is_active := true }

/-- C3 counterexample: two identical well-formed records for the same
(user_id, chat_id) with identical timestamps cannot both be appended: the
schema constraint UNIQUE(user_id, chat_id, timestamp) makes the second
INSERT raise IntegrityError. -/
theorem add_violation_rejects_duplicate_timestamp :
    Database.add_violation Database.empty dup_violation =
      .ok (1, ⟨[(1, dup_violation)], 2⟩) ∧
    Database.add_violation ⟨[(1, dup_violation)], 2⟩ dup_violation =
      .error "UNIQUE constraint failed: user_violations.user_id, user_violations.chat_id, user_violations.timestamp" := by
  exact ⟨rfl, rfl⟩

/-- C3 amended: `add_violation` succeeds and returns a fresh id for every
well-formed record whose (user_id, chat_id, timestamp) triple is not
already present in the table; a record duplicating such a triple is
rejected by the UNIQUE constraint (see the counterexample). -/
theorem add_violation_accepts_fresh_triple (db : Database) (v : UserViolation)
    (hids : ∀ p ∈ db.rows, p.1 < db.next_id)
    (hnodup : ∀ p ∈ db.rows, violates_unique v p = false) :
    Database.add_violation db v =
      .ok (db.next_id, ⟨db.rows ++ [(db.next_id, v)], db.next_id + 1⟩) ∧
    ∀ p ∈ db.rows, p.1 ≠ db.next_id := by
  constructor
  · unfold Database.add_violation
    rw [if_neg]
    intro hany
    obtain ⟨p, hp, hptrue⟩ := List.any_eq_true.mp hany
    rw [hnodup p hp] at hptrue
    exact Bool.false_ne_true hptrue
  · intro p hp
    exact Nat.ne_of_lt (hids p hp)

/-- Witness for C3 (amended) on the empty table. -/
theorem add_violation_accepts_fresh_triple_witness :
    Database.add_violation Database.empty dup_violation =
      .ok (Database.empty.next_id,
        ⟨Database.empty.rows ++ [(Database.empty.next_id, dup_violation)],
         Database.empty.next_id + 1⟩) ∧
    ∀ p ∈ Database.empty.rows, p.1 ≠ Database.empty.next_id :=
  add_violation_accepts_fresh_triple Database.empty dup_violation
    (by intro p hp; cases hp) (by intro p hp; cases hp)

/-! ## Status query (claim C8) -/

/-- C8 counterexample: querying the status of a previously untracked actor
creates a tracker entry: the tracked-actor count reported by `get_stats`
grows from 0 to 1. -/
theorem get_user_status_creates_tracker_entry :
    (RateLimiter.get_stats RateLimiter.empty).1 = 0 ∧
    (RateLimiter.get_stats
      (ModerationManager.get_user_status test_config RateLimiter.empty
        Database.empty 0 1 2).2).1 = 1 := by
  exact ⟨by decide, by decide⟩

/-- C8 amended: `get_user_status` reads the Ledger only and appends no
timestamp, but for a previously untracked actor the `get_message_count` it
calls creates an empty tracker entry (a defaultdict read plus store), so
the reported tracked-actor count grows by exactly one. -/
theorem get_user_status_amended (cfg : Config) (rl : RateLimiter)
    (db : Database) (now user_id chat_id : Int)
    (h : rl.message_history.lookup (chat_id, user_id) = none) :
    (ModerationManager.get_user_status cfg rl db now user_id chat_id).2 =
      rl.store (chat_id, user_id) [] ∧
    (rl.store (chat_id, user_id) []).message_history =
      rl.message_history ++ [((chat_id, user_id), [])] ∧
    (RateLimiter.get_stats
      (ModerationManager.get_user_status cfg rl db now user_id chat_id).2).1 =
      (RateLimiter.get_stats rl).1 + 1 := by
  have hread : rl.read (chat_id, user_id) = [] := by
    unfold RateLimiter.read
    rw [h]
  have h1 : (ModerationManager.get_user_status cfg rl db now user_id chat_id).2 =
      rl.store (chat_id, user_id) [] := by
    simp [ModerationManager.get_user_status, RateLimiter.get_message_count, hread]
  have h2 : (rl.store (chat_id, user_id) []).message_history =
      rl.message_history ++ [((chat_id, user_id), [])] := by
    unfold RateLimiter.store
    rw [if_pos h]
  refine ⟨h1, h2, ?_⟩
  rw [h1]
  unfold RateLimiter.get_stats
  rw [h2]
  simp

/-- Witness for C8 (amended): the untracked actor (1, 2) on a fresh
limiter. -/
theorem get_user_status_amended_witness :
    (ModerationManager.get_user_status test_config RateLimiter.empty
      Database.empty 0 1 2).2 = RateLimiter.empty.store (2, 1) [] ∧
    (RateLimiter.empty.store (2, 1) []).message_history =
      RateLimiter.empty.message_history ++ [((2, 1), [])] ∧
    (RateLimiter.get_stats
      (ModerationManager.get_user_status test_config RateLimiter.empty
        Database.empty 0 1 2).2).1 =
      (RateLimiter.get_stats RateLimiter.empty).1 + 1 :=
  get_user_status_amended test_config RateLimiter.empty Database.empty 0 1 2
    (by decide)

/-! ## Association-list lemmas for the tracker dict -/

lemma lookup_append_single_of_none (l : List ((Int × Int) × List Int))
    (k : Int × Int) (v : List Int) (h : l.lookup k = none) :
    (l ++ [(k, v)]).lookup k = some v := by
  induction l with
  | nil => simp [List.lookup]
  | cons p t ih =>
    rw [List.cons_append]
    cases hpk : k == p.1 with
    | true =>
      rw [List.lookup_cons] at h
      simp [hpk] at h
    | false =>
      rw [List.lookup_cons] at h ⊢
      simp only [hpk] at h ⊢
      exact ih h

lemma lookup_map_update (l : List ((Int × Int) × List Int))
    (k : Int × Int) (v : List Int) (h : l.lookup k ≠ none) :
    (l.map (fun p => if p.1 = k then (k, v) else p)).lookup k = some v := by
  induction l with
  | nil => simp [List.lookup] at h
  | cons p t ih =>
    by_cases hpk : p.1 = k
    · simp only [List.map_cons, if_pos hpk]
      rw [List.lookup_cons]
      simp
    · simp only [List.map_cons, if_neg hpk]
      rw [List.lookup_cons] at h ⊢
      have hke : (k == p.1) = false := by
        simp only [beq_eq_false_iff_ne]
        exact fun hkp => hpk hkp.symm
      simp only [hke] at h ⊢
      exact ih h

/-- After a store, reading the stored key yields the stored value. -/
lemma RateLimiter.read_store_self (rl : RateLimiter) (k : Int × Int)
    (v : List Int) : (rl.store k v).read k = v := by
  unfold RateLimiter.store RateLimiter.read
  by_cases h : rl.message_history.lookup k = none
  · rw [if_pos h, lookup_append_single_of_none rl.message_history k v h]
  · rw [if_neg h, lookup_map_update rl.message_history k v h]

/-! ## Escalation ordinal (claim C1) -/

/-- Follows the words of the spec for C1 (not the source): 1 plus the number
of the prior rate_limit-type records of the actor in the 30-day window, with
manual-type records never counted. -/
def spec_escalation_ordinal (db : Database) (user_id chat_id now : Int) : Nat :=
  (db.rows.filter (fun p =>
    p.2.user_id = user_id ∧ p.2.chat_id = chat_id ∧
      p.2.violation_type = VType.rate_limit ∧
      p.2.timestamp > now - 30 * 86400)).length + 1

/-- A manual-mute record for actor (7, 9) written at t = 100. -/
def manual_record : UserViolation :=
  { user_id := 7, chat_id := 9, violation_type := .manual, timestamp := 100,
    mute_duration_minutes := 30, is_active := true }

/-- The table after that one manual mute. -/
def db_with_manual : Database := ⟨[(1, manual_record)], 2⟩

/-- A limiter in which actor (7, 9) has sent five messages at t = 195..199,
so a sixth at t = 200 trips the threshold of `test_config`. -/
def burst_rl : RateLimiter := ⟨[((9, 7), [195, 196, 197, 198, 199])]⟩

/-- C1 counterexample: after a single manual mute (violation_type manual,
written through `manual_mute`), the next rate-limit violation for the same
actor is handled with ordinal 2 and rung 360, although the ordinal of the spec
(counting rate_limit records only) is 1: manual records are counted. -/
theorem rate_limit_ordinal_counts_manual :
    ModerationManager.manual_mute Database.empty 100 7 9 30 (.success "alice") =
      .ok (.applied 1 "alice", db_with_manual) ∧
    spec_escalation_ordinal db_with_manual 7 9 200 = 1 ∧
    (ModerationManager.handle_message test_config burst_rl db_with_manual 200
        7 9 (.success "alice")).toOption.map
      (fun r => r.returned.map (fun a => (a.violation_count, a.mute_duration_minutes))) =
      some (some (2, 360)) := by
  exact ⟨rfl, rfl, rfl⟩

/-- C1 amended: the ordinal `handle_message` feeds the escalation ladder is
1 plus the number of ALL records of the actor in the 30-day window —
rate_limit and manual alike, since `get_user_violation_count` has no
violation_type condition. -/
theorem handle_message_ordinal_counts_all_types (cfg : Config)
    (rl : RateLimiter) (db : Database) (now user_id chat_id : Int)
    (mr : MuteResult) (r : HandleResult) (act : MuteAction)
    (hr : ModerationManager.handle_message cfg rl db now user_id chat_id mr = .ok r)
    (ha : r.returned = some act) :
    act.violation_count =
      (db.rows.filter (fun p =>
        p.2.user_id = user_id ∧ p.2.chat_id = chat_id ∧
          p.2.timestamp > now - 30 * 86400)).length + 1 := by
  simp only [ModerationManager.handle_message] at hr
  split at hr
  · split at hr
    · exact absurd hr (by simp)
    · split at hr
      · exact absurd hr (by simp)
      · split at hr
        · cases hr
          cases ha
          rfl
        · cases hr
          simp at ha
  · cases hr
    simp at ha

/-- The action dict produced in the C1 scenario. -/
def C1_run_act : MuteAction :=
  { action := "mute", user_id := 7, chat_id := 9, violation_id := 2,
    violation_count := 2, mute_duration_minutes := 360, username := "alice",
    reason := "Rate limit exceeded" }

/-- The full `handle_message` outcome in the C1 scenario. -/
def C1_run_result : HandleResult :=
  { returned := some C1_run_act, notified := true, rl := ⟨[]⟩,
    db := ⟨[(1, manual_record),
            (2, { user_id := 7, chat_id := 9, violation_type := .rate_limit,
                  timestamp := 200, mute_duration_minutes := 360,
                  is_active := true })], 3⟩ }

/-- Witness for C1 (amended) at the concrete scenario. -/
theorem handle_message_ordinal_counts_all_types_witness :
    C1_run_act.violation_count =
      (db_with_manual.rows.filter (fun p =>
        p.2.user_id = 7 ∧ p.2.chat_id = 9 ∧
          p.2.timestamp > 200 - 30 * 86400)).length + 1 :=
  handle_message_ordinal_counts_all_types test_config burst_rl db_with_manual
    200 7 9 (.success "alice") C1_run_result C1_run_act rfl rfl

/-! ## Actuation failure (claim C4) -/

/-- C4 counterexample: when the mute fails, `handle_message` returns None —
the very value the no-violation path returns — instead of a failure result
carrying the error description. Same inputs, one call over the threshold
with a failing actuator, one fresh actor with no violation: both return
None. -/
theorem handle_message_failure_returns_none :
    (ModerationManager.handle_message test_config burst_rl Database.empty 200
        7 9 (.failure "Bot not admin")).toOption.map (fun r => r.returned) =
      some none ∧
    (ModerationManager.handle_message test_config RateLimiter.empty
        Database.empty 200 7 9 (.failure "Bot not admin")).toOption.map
      (fun r => r.returned) = some none := by
  exact ⟨rfl, rfl⟩

/-- C4 amended: on a detected violation whose actuation fails,
`handle_message` does not reset the tracker state for the actor (the
post-check state, whose entry for the actor is non-empty, is returned
untouched), emits no admin notification, leaves the appended
ViolationRecord in the table — but returns None, indistinguishable from
the no-violation outcome; the underlying error is only logged. -/
theorem handle_message_failure_amended (cfg : Config) (rl : RateLimiter)
    (db : Database) (now user_id chat_id : Int) (e : String)
    (r : HandleResult)
    (hexc : (RateLimiter.add_message cfg rl now user_id chat_id).1 = true)
    (hr : ModerationManager.handle_message cfg rl db now user_id chat_id
      (.failure e) = .ok r) :
    r.returned = none ∧ r.notified = false ∧
    r.rl = (RateLimiter.add_message cfg rl now user_id chat_id).2 ∧
    r.rl.read (chat_id, user_id) ≠ [] ∧
    ∃ p ∈ r.db.rows, p.2.user_id = user_id ∧ p.2.chat_id = chat_id ∧
      p.2.violation_type = VType.rate_limit ∧ p.2.timestamp = now ∧
      p.2.is_active = true := by
  by_cases hexuser : cfg.is_exempt_from_rate_limit user_id = true
  · exfalso
    simp [RateLimiter.add_message, RateLimiter.check_rate_limit, hexuser] at hexc
  · simp only [ModerationManager.handle_message] at hr
    rw [if_pos hexc] at hr
    split at hr
    · exact absurd hr (by simp)
    · rename_i d hd
      split at hr
      · exact absurd hr (by simp)
      · rename_i pair hadd
        cases hr
        have hstate : (RateLimiter.add_message cfg rl now user_id chat_id).2 =
            rl.store (chat_id, user_id)
              ((rl.read (chat_id, user_id)).filter
                (fun timestamp => timestamp > now - cfg.antiflood_window_seconds) ++ [now]) := by
          simp [RateLimiter.add_message, RateLimiter.check_rate_limit, hexuser]
        refine ⟨rfl, rfl, rfl, ?_, ?_⟩
        · show (RateLimiter.add_message cfg rl now user_id chat_id).2.read
            (chat_id, user_id) ≠ []
          rw [hstate, RateLimiter.read_store_self]
          simp
        · -- the appended record is in the table returned by add_violation
          unfold Database.add_violation at hadd
          split at hadd
          · exact absurd hadd (by simp)
          · cases hadd
            refine ⟨(db.next_id,
              { user_id, chat_id, violation_type := VType.rate_limit,
                timestamp := now, mute_duration_minutes := d,
                is_active := true }), ?_, rfl, rfl, rfl, rfl, rfl⟩
            simp

/-- The `handle_message` outcome in the C4 failing-actuator scenario. -/
def C4_run_result : HandleResult :=
  { returned := none, notified := false,
    rl := ⟨[((9, 7), [195, 196, 197, 198, 199, 200])]⟩,
    db := ⟨[(1, { user_id := 7, chat_id := 9, violation_type := .rate_limit,
                  timestamp := 200, mute_duration_minutes := 60,
                  is_active := true })], 2⟩ }

/-- Witness for C4 (amended) at the concrete failing-actuator scenario. -/
theorem handle_message_failure_amended_witness :
    C4_run_result.returned = none ∧ C4_run_result.notified = false ∧
    C4_run_result.rl = (RateLimiter.add_message test_config burst_rl 200 7 9).2 ∧
    C4_run_result.rl.read (9, 7) ≠ [] ∧
    ∃ p ∈ C4_run_result.db.rows, p.2.user_id = 7 ∧ p.2.chat_id = 9 ∧
      p.2.violation_type = VType.rate_limit ∧ p.2.timestamp = 200 ∧
      p.2.is_active = true :=
  handle_message_failure_amended test_config burst_rl Database.empty 200 7 9
    "Bot not admin" C4_run_result (by decide) rfl

/-! ## Sliding-window contract (claim C2) -/

lemma window_calls_append (W M : Int) (hist : List Int) (us vs : List Int) :
    window_calls W M hist (us ++ vs) =
      ((window_calls W M hist us).1 ++
        (window_calls W M (window_calls W M hist us).2 vs).1,
       (window_calls W M (window_calls W M hist us).2 vs).2) := by
  induction us generalizing hist with
  | nil => simp [window_calls]
  | cons u us ih => simp [window_calls, ih]

lemma window_calls_length (W M : Int) (hist : List Int) (ts : List Int) :
    (window_calls W M hist ts).1.length = ts.length := by
  induction ts generalizing hist with
  | nil => rfl
  | cons t ts ih => simp [window_calls, ih]

/-- The spec property of the window core, proved from the code: after a
non-decreasing sequence of call instants starting from an empty history,
the kept history is exactly the calls inside the final window, and the
k-th flag says whether the number of still-in-window calls up to and
including the k-th strictly exceeds the threshold. -/
lemma window_calls_spec (W M : Int) (hW : 0 < W) (ts : List Int)
    (hs : ts.Sorted (· ≤ ·)) :
    (∀ hne : ts ≠ [],
      (window_calls W M [] ts).2 =
        ts.filter (fun x => x > ts.getLast hne - W)) ∧
    (∀ k, ∀ hk : k < ts.length,
      (window_calls W M [] ts).1[k]? =
        some (decide ((((ts.take (k + 1)).filter
          (fun x => x > ts.get ⟨k, hk⟩ - W)).length : Int) > M))) := by
  induction ts using List.reverseRecOn with
  | nil =>
    refine ⟨fun hne => absurd rfl hne, fun k hk => absurd hk (by simp)⟩
  | append_singleton us t ih =>
    obtain ⟨hsu, -, hletp⟩ := List.pairwise_append.mp hs
    have hle : ∀ x ∈ us, x ≤ t := fun x hx =>
      hletp x hx t (List.mem_singleton.mpr rfl)
    have ihsp := ih hsu
    have hsnd : (window_calls W M [] (us ++ [t])).2 =
        ((window_calls W M [] us).2.filter (fun x => x > t - W)) ++ [t] := by
      rw [window_calls_append]
      simp [window_calls, window_step]
    have hfst : (window_calls W M [] (us ++ [t])).1 =
        (window_calls W M [] us).1 ++
          [decide (((((window_calls W M [] us).2.filter
            (fun x => x > t - W)) ++ [t]).length : Int) > M)] := by
      rw [window_calls_append]
      simp [window_calls, window_step]
    have htIn : t > t - W := by omega
    have hhist1 : ((window_calls W M [] us).2.filter (fun x => x > t - W)) ++ [t] =
        (us ++ [t]).filter (fun x => x > t - W) := by
      by_cases hus : us = []
      · subst hus
        simp [window_calls, htIn]
      · rw [ihsp.1 hus, List.filter_filter, List.filter_append]
        have hcongr : us.filter
            (fun a => decide (a > t - W) && decide (a > us.getLast hus - W)) =
            us.filter (fun x => decide (x > t - W)) := by
          apply List.filter_congr
          intro x hx
          have hlast : us.getLast hus ≤ t := hle _ (List.getLast_mem hus)
          cases hq : decide (x > t - W) with
          | true =>
            have hx1 : x > t - W := of_decide_eq_true hq
            have hx2 : x > us.getLast hus - W := by omega
            simp [hx1, hx2]
          | false => simp [hq]
        rw [hcongr]
        congr 1
        simp [htIn]
    constructor
    · intro hne
      rw [hsnd]
      have hlastht : (us ++ [t]).getLast hne = t := List.getLast_append_singleton us
      rw [hlastht]
      exact hhist1
    · intro k hk
      rw [hfst]
      by_cases hk2 : k < us.length
      · have hklen : k < (window_calls W M [] us).1.length := by
          rw [window_calls_length]; exact hk2
        rw [List.getElem?_append, if_pos hklen]
        have htake : (us ++ [t]).take (k + 1) = us.take (k + 1) :=
          List.take_append_of_le_length (by omega)
        have hget : (us ++ [t]).get ⟨k, hk⟩ = us.get ⟨k, hk2⟩ := by
          rw [List.get_eq_getElem, List.get_eq_getElem, List.getElem_append]
          rw [dif_pos hk2]
        rw [htake, hget]
        exact ihsp.2 k hk2
      · have hkeq : k = us.length := by
          have hlen : (us ++ [t]).length = us.length + 1 := by simp
          omega
        subst hkeq
        have hlen1 : (window_calls W M [] us).1.length = us.length :=
          window_calls_length W M [] us
        have hlhs : ((window_calls W M [] us).1 ++
            [decide (((((window_calls W M [] us).2.filter
              (fun x => x > t - W)) ++ [t]).length : Int) > M)])[us.length]? =
            some (decide (((((window_calls W M [] us).2.filter
              (fun x => x > t - W)) ++ [t]).length : Int) > M)) := by
          conv_lhs => rw [← hlen1]
          exact List.getElem?_concat_length _ _
        rw [hlhs]
        have htake : (us ++ [t]).take (us.length + 1) = us ++ [t] := by
          have hlen : us.length + 1 = (us ++ [t]).length := by simp
          rw [hlen, List.take_length]
        have hget : (us ++ [t]).get ⟨us.length, hk⟩ = t := by
          rw [List.get_eq_getElem]
          exact List.getElem_concat_length us t _ rfl _
        rw [htake, hget, hhist1]

/-- For a non-exempt actor, iterating `check_rate_limit` produces exactly
the flags of the pure window core run on the stored history of that actor. -/
lemma run_calls_eq_window_calls (cfg : Config) (user_id chat_id : Int)
    (hex : cfg.is_exempt_from_rate_limit user_id = false) (ts : List Int)
    (rl : RateLimiter) :
    (RateLimiter.run_calls cfg user_id chat_id rl ts).1 =
      (window_calls cfg.antiflood_window_seconds cfg.antiflood_max_messages
        (rl.read (chat_id, user_id)) ts).1 := by
  induction ts generalizing rl with
  | nil => rfl
  | cons t ts ih =>
    simp only [RateLimiter.run_calls, window_calls, window_step,
      RateLimiter.check_rate_limit, hex, Bool.false_eq_true, if_false]
    rw [ih, RateLimiter.read_store_self]

/-- C2: for every call sequence of a non-exempt actor at non-decreasing
instants on a fresh limiter, the k-th `check_rate_limit` call returns true
iff the number of still-in-window calls up to and including the k-th
strictly exceeds the configured threshold. -/
theorem check_rate_limit_window_contract (cfg : Config) (user_id chat_id : Int)
    (ts : List Int)
    (hex : cfg.is_exempt_from_rate_limit user_id = false)
    (hW : 0 < cfg.antiflood_window_seconds)
    (hs : ts.Sorted (· ≤ ·)) (k : Nat) (hk : k < ts.length) :
    (RateLimiter.run_calls cfg user_id chat_id RateLimiter.empty ts).1[k]? =
      some (decide ((((ts.take (k + 1)).filter
        (fun x => x > ts.get ⟨k, hk⟩ - cfg.antiflood_window_seconds)).length : Int) >
        cfg.antiflood_max_messages)) := by
  rw [run_calls_eq_window_calls cfg user_id chat_id hex ts RateLimiter.empty]
  exact (window_calls_spec _ _ hW ts hs).2 k hk

/-- Witness for C2: scenario A — window 10 s, threshold 5, actor (7, 9),
six calls at t = 0..5 yield [F, F, F, F, F, T], and the sixth call agrees
with the still-in-window count formula. -/
theorem check_rate_limit_window_contract_witness :
    (RateLimiter.run_calls test_config 7 9 RateLimiter.empty
      [0, 1, 2, 3, 4, 5]).1 = [false, false, false, false, false, true] ∧
    (RateLimiter.run_calls test_config 7 9 RateLimiter.empty
      [0, 1, 2, 3, 4, 5]).1[5]? =
      some (decide ((((([0, 1, 2, 3, 4, 5] : List Int).take 6).filter
        (fun x => x > ([0, 1, 2, 3, 4, 5] : List Int).get ⟨5, by decide⟩ -
          test_config.antiflood_window_seconds)).length : Int) >
        test_config.antiflood_max_messages)) :=
  ⟨by decide,
   check_rate_limit_window_contract test_config 7 9 [0, 1, 2, 3, 4, 5]
     (by decide) (by decide) (by decide) 5 (by decide)⟩
